import Mathlib

/-!
Verification of the AliExpress OAuth token lifecycle manager
(src/server/aliexpress/auth.py, src/server/aliexpress/utils.py,
src/server/aliexpress_oauth.py).

Modelling conventions:
* Instants (Python `datetime` values, UTC) are integers counting seconds.
  `datetime.isoformat` / `datetime.fromisoformat` are modelled as the decimal
  rendering of the instant and its partial inverse `String.toInt?`: a
  well-formed timestamp string is the encoding of an instant, a malformed
  string is any string the partial parse rejects, and `parse (encode t) = t`,
  exactly the relation the Python pair satisfies.
* A JSON object is an association list of string keys to values
  (strings or integers); a Python dict key that is absent and a key bound to
  `None` are both modelled as the absent field of an `Option`.
* The token file on disk is `FileState`: absent, unreadable/unparseable, or
  holding a parsed JSON object.
* The upstream HTTP POST of `exchange_code_for_token` / `refresh_token` is an
  oracle argument `HttpOutcome`: a response with a status code and a body
  (a parsed JSON object, or raw non-JSON text), a timeout, or a transport
  error.  "Performs no HTTP call" is expressed as independence from this
  argument.
* `datetime.utcnow()` is the explicit argument `now`; the two successive
  calls inside the success path of the exchange are coalesced into one
  instant, as the spec's ±1s tolerance allows.
-/

/-- Model of `datetime.isoformat`: the canonical string encoding of an
instant. -/
def isoEncode (t : Int) : String := toString t

/-- Value of a decimal digit character. -/
def digitVal (c : Char) : Option Nat :=
  if c.isDigit then some (c.toNat - Char.toNat (Char.ofNat 48)) else none

def parseNatAux : List Char → Nat → Option Nat
  | [], acc => some acc
  | c :: cs, acc =>
    match digitVal c with
    | some d => parseNatAux cs (acc * 10 + d)
    | none => none

/-- Parse a non-empty all-digit character list. -/
def parseNatDigits (cs : List Char) : Option Nat :=
  match cs with
  | [] => none
  | _ => parseNatAux cs 0

/-- Model of `datetime.fromisoformat`: the partial parse of a timestamp
string, failing exactly on malformed strings.  A well-formed string is the
decimal encoding of an instant, so `fromisoformat (isoEncode t) = some t`
and anything else fails, mirroring the partial-inverse relation of the
Python pair. -/
def fromisoformat (s : String) : Option Int :=
  match s.data with
  | '-' :: cs => (parseNatDigits cs).map (fun n => -(n : Int))
  | cs => (parseNatDigits cs).map (fun n => (n : Int))

/-- The persisted token record, mirroring the JSON object written to
`external_scrapers/aliexpress_token.json`.  Each `Option` field models the
presence of the corresponding dict key. -/
structure TokenData where
  access_token : Option String
  refresh_token : Option String
  token_type : Option String
  scope : Option String
  expires_in : Option Int
  obtained_at : Option String
  expires_at : Option String
deriving DecidableEq

/-- JSON scalar values occurring in the token file. -/
inductive JVal where
  | str (s : String)
  | num (n : Int)
deriving DecidableEq

/-- JSON object: association list from keys to values. -/
abbrev JObj := List (String × JVal)

def JVal.asStr : JVal → Option String
  | .str s => some s
  | _ => none

def JVal.asInt : JVal → Option Int
  | .num n => some n
  | _ => none

/-- Emit a key only when the field is present, as `json.dump` does for the
dict built by the exchange/refresh success paths. -/
def optField (k : String) (v : Option JVal) : JObj :=
  match v with
  | some x => [(k, x)]
  | none => []

/-- Serialization of a token record to its JSON object (`json.dump`). -/
def toJson (d : TokenData) : JObj :=
  optField "access_token" (d.access_token.map .str) ++
  optField "refresh_token" (d.refresh_token.map .str) ++
  optField "token_type" (d.token_type.map .str) ++
  optField "scope" (d.scope.map .str) ++
  optField "expires_in" (d.expires_in.map .num) ++
  optField "obtained_at" (d.obtained_at.map .str) ++
  optField "expires_at" (d.expires_at.map .str)

/-- Reading the fields of a parsed JSON object back into a record
(`json.load` followed by the dict accesses the code performs). -/
def fromJson (j : JObj) : TokenData :=
  { access_token := (List.lookup "access_token" j).bind JVal.asStr
  , refresh_token := (List.lookup "refresh_token" j).bind JVal.asStr
  , token_type := (List.lookup "token_type" j).bind JVal.asStr
  , scope := (List.lookup "scope" j).bind JVal.asStr
  , expires_in := (List.lookup "expires_in" j).bind JVal.asInt
  , obtained_at := (List.lookup "obtained_at" j).bind JVal.asStr
  , expires_at := (List.lookup "expires_at" j).bind JVal.asStr }

/-- State of the token file on disk. -/
inductive FileState where
  | absent
  | invalid
  | content (j : JObj)
deriving DecidableEq

/-- `TokenStorage.save_token` (auth.py:47-55): overwrite the file with the
JSON serialization of the record. -/
def TokenStorage.save_token (token_data : TokenData) : FileState :=
  .content (toJson token_data)

/-- `TokenStorage.load_token` (auth.py:57-65): read and parse the file,
returning `None` when it is absent or any read/parse error occurs. -/
def TokenStorage.load_token (f : FileState) : Option TokenData :=
  match f with
  | .content j => some (fromJson j)
  | _ => none

/-- `is_token_valid` (auth.py:67-79, utils.py:190-211,
aliexpress_oauth.py:202-215 — three identical copies).  `none` models both
the Python `None` argument and the empty dict (.`not token_data`); a record
whose `access_token` key is absent is rejected; a present `expires_at` is
parsed, a parse failure yields `False`, and otherwise validity is
`utcnow() < expires_at - timedelta(minutes=5)`; with no `expires_at` key the
record is treated as non-expiring. -/
def is_token_valid (now : Int) (token_data : Option TokenData) : Bool :=
  match token_data with
  | none => false
  | some d =>
    match d.access_token with
    | none => false
    | some _ =>
      match d.expires_at with
      | some s =>
        match fromisoformat s with
        | some t => decide (now < t - 5 * 60)
        | none => false
      | none => true

/-- `load_token` (aliexpress_oauth.py:182-200) and `load_token_from_file`
(utils.py:165-188): read the file, treating an absent file and any
read/parse failure as `None`, and return the parsed record only when
`is_token_valid` holds on it. -/
def load_token (now : Int) (f : FileState) : Option TokenData :=
  match f with
  | .content j =>
    if is_token_valid now (some (fromJson j)) then some (fromJson j) else none
  | _ => none

/-- The JSON body of the upstream token endpoint response, as the code reads
it: the token fields on success, `error` / `error_description` on an OAuth
error. -/
structure TokenResponseJson where
  access_token : Option String
  refresh_token : Option String
  token_type : Option String
  scope : Option String
  expires_in : Option Int
  error : Option String
  error_description : Option String
deriving DecidableEq

/-- Body of an upstream HTTP response: a parsed JSON object, or raw text
that `response.json()` fails to parse. -/
inductive Body where
  | json (j : TokenResponseJson)
  | raw (text : String)
deriving DecidableEq

/-- Outcome of the single upstream HTTP POST, supplied as an oracle. -/
inductive HttpOutcome where
  | response (status : Nat) (body : Body)
  | timeout
  | transportError (msg : String)
deriving DecidableEq

/-- Result dictionary of `exchange_code_for_token`: the `success: True`
return carrying the token fields, or the `error: True` return carrying a
message and, in the non-200 branch only, a `status_code`. -/
inductive ExchangeResult where
  | ok (record : TokenData)
  | err (message : String) (status_code : Option Nat)
deriving DecidableEq

/-- The record persisted by a successful exchange or refresh
(auth.py:178-187, utils.py:105-114): the upstream JSON augmented with
`obtained_at = utcnow()` and, when `expires_in` is present,
`expires_at = utcnow() + expires_in`. -/
def persistedRecord (now : Int) (j : TokenResponseJson) : TokenData :=
  { access_token := j.access_token
  , refresh_token := j.refresh_token
  , token_type := j.token_type
  , scope := j.scope
  , expires_in := j.expires_in
  , obtained_at := some (isoEncode now)
  , expires_at := j.expires_in.map (fun e => isoEncode (now + e)) }

/-- The dictionary returned by a successful exchange (auth.py:190-199):
`token_type` defaults to `"Bearer"`, `scope` is not carried, the timestamp
fields echo the persisted record. -/
def returnedRecord (now : Int) (j : TokenResponseJson) : TokenData :=
  { access_token := j.access_token
  , refresh_token := j.refresh_token
  , token_type := some (j.token_type.getD "Bearer")
  , scope := none
  , expires_in := j.expires_in
  , obtained_at := some (isoEncode now)
  , expires_at := j.expires_in.map (fun e => isoEncode (now + e)) }

/-- The `HTTP <status>` error message of the non-200 branch
(auth.py:219-221), extended with the parsed error description when the JSON
body carries an `error` key. -/
def httpErrorMessage (status : Nat) (j : TokenResponseJson) : String :=
  "HTTP " ++ toString status ++
    (match j.error with
     | some e => ": " ++ j.error_description.getD e
     | none => "")

/-- `exchange_code_for_token` (auth.py:120-243; aliexpress_oauth.py:42-164
is line-for-line the same logic).  The guard rejects an empty code before
any HTTP activity; the response body is JSON-parsed before the status check;
on 200 with an `access_token` the augmented record is saved and the success
dictionary returned; every other path returns an error dictionary and
leaves the file untouched. -/
def exchange_code_for_token (now : Int) (authorization_code : String)
    (outcome : HttpOutcome) (f : FileState) : ExchangeResult × FileState :=
  if authorization_code = "" then
    (.err "Authorization code is required" none, f)
  else
    match outcome with
    | .timeout => (.err "Request timed out" none, f)
    | .transportError e => (.err ("Request failed: " ++ e) none, f)
    | .response status body =>
      match body with
      | .raw text =>
        (.err ("Invalid JSON response from AliExpress API: " ++ text.take 200)
          none, f)
      | .json j =>
        if status = 200 then
          match j.access_token with
          | some _ =>
            (.ok (returnedRecord now j),
             TokenStorage.save_token (persistedRecord now j))
          | none =>
            match j.error with
            | some e =>
              (.err ("OAuth error: " ++ j.error_description.getD e) none, f)
            | none =>
              (.err "No access token received from AliExpress" none, f)
        else
          (.err (httpErrorMessage status j) (some status), f)

/-- `refresh_token` (utils.py:62-141).  Failures are raised exceptions,
modelled as `Except.error` with the exception message; a 200 response whose
body is not JSON raises through the `json.JSONDecodeError` handler; success
persists the augmented upstream JSON wholesale and returns it. -/
def refresh_token (now : Int) (old_refresh_token : String)
    (outcome : HttpOutcome) (f : FileState) :
    Except String TokenData × FileState :=
  if old_refresh_token = "" then
    (.error "Refresh token is required", f)
  else
    match outcome with
    | .timeout => (.error "Token refresh request timed out", f)
    | .transportError e =>
      (.error ("Token refresh request failed: " ++ e), f)
    | .response status body =>
      if status = 200 then
        match body with
        | .raw _ => (.error "Invalid response from AliExpress API", f)
        | .json j =>
          match j.access_token with
          | some _ =>
            let p := persistedRecord now j
            (.ok p, TokenStorage.save_token p)
          | none =>
            (.error ("Token refresh failed: " ++
              j.error_description.getD "Token refresh failed"), f)
      else
        (.error ("Token refresh failed with status " ++ toString status), f)

/-! Helper lemmas. -/

set_option maxHeartbeats 4000000 in
/-- Serialization of a token record is lossless: reading back the written
JSON object recovers every field. -/
theorem fromJson_toJson (d : TokenData) : fromJson (toJson d) = d := by
  obtain ⟨a, r, t, sc, e, o, x⟩ := d
  cases a <;> cases r <;> cases t <;> cases sc <;> cases e <;> cases o <;> cases x <;>
    simp [fromJson, toJson, optField, List.lookup, JVal.asStr, JVal.asInt]

/-- A string with a non-empty prefix is non-empty. -/
theorem append_ne_empty (s t : String) (h : s.length ≠ 0) : s ++ t ≠ "" := by
  intro he
  have hl := congrArg String.length he
  rw [String.length_append, String.length_empty] at hl
  omega

/-! Claim theorems. -/

/-- C1, counterexample: the claim says `isValid` returns false when the
record's `accessToken` is missing or empty, but the code only tests key
presence (`"access_token" not in token_data`), so a record whose
`access_token` is the empty string and which has no `expires_at` is
reported valid. -/
theorem c1_counterexample :
    is_token_valid 0
      (some { access_token := some "", refresh_token := none,
              token_type := none, scope := none, expires_in := none,
              obtained_at := none, expires_at := none }) = true := by decide

/-- C1, amended: `isValid` returns false if the record is absent or its
`access_token` key is missing (an empty-string `access_token` with the key
present is not rejected); if `expires_at` is present and well-formed it
returns true exactly when the current time is strictly earlier than
`expires_at` minus 5 minutes; if `expires_at` is absent it returns true
regardless of `obtained_at`. -/
theorem c1_is_token_valid_characterization (now : Int) (d : TokenData) :
    is_token_valid now none = false
    ∧ (d.access_token = none → is_token_valid now (some d) = false)
    ∧ (∀ a s t, d.access_token = some a → d.expires_at = some s →
        fromisoformat s = some t →
        (is_token_valid now (some d) = true ↔ now < t - 5 * 60))
    ∧ (∀ a, d.access_token = some a → d.expires_at = none →
        is_token_valid now (some d) = true) := by
  refine ⟨rfl, ?_, ?_, ?_⟩
  · intro h
    simp [is_token_valid, h]
  · intro a s t ha hs ht
    simp [is_token_valid, ha, hs, ht]
  · intro a ha hx
    simp [is_token_valid, ha, hx]

/-- C1 witness: a record expiring 10 minutes from now is valid, one
expiring 4 minutes from now is not, via the amended characterization. -/
theorem c1_witness :
    is_token_valid 0
      (some ⟨some "tok", none, none, none, none, none, some "600"⟩) = true
    ∧ is_token_valid 0
      (some ⟨some "tok", none, none, none, none, none, some "240"⟩) = false := by
  constructor
  · exact ((c1_is_token_valid_characterization 0
      ⟨some "tok", none, none, none, none, none, some "600"⟩).2.2.1
        "tok" "600" 600 rfl rfl (by decide)).mpr (by decide)
  · have h := ((c1_is_token_valid_characterization 0
      ⟨some "tok", none, none, none, none, none, some "240"⟩).2.2.1
        "tok" "240" 240 rfl rfl (by decide))
    rw [Bool.eq_false_iff]
    intro htrue
    exact absurd (h.mp htrue) (by decide)

/-- C10: a record whose `access_token` is present but whose `expires_at`
field does not parse is invalid — the `except` branch of the code returns
`False` rather than falling into the lenient non-expiring case, and no
parse error escapes. -/
theorem c10_malformed_expiry_invalid (now : Int) (d : TokenData)
    (a s : String) (ha : d.access_token = some a) (hs : d.expires_at = some s)
    (hbad : fromisoformat s = none) :
    is_token_valid now (some d) = false := by
  simp [is_token_valid, ha, hs, hbad]

/-- C10 witness: a concrete record with an unparseable expiry is invalid. -/
theorem c10_witness :
    is_token_valid 0
      (some ⟨some "tok", none, none, none, none, none, some "not-a-date"⟩)
      = false :=
  c10_malformed_expiry_invalid 0
    ⟨some "tok", none, none, none, none, none, some "not-a-date"⟩
    "tok" "not-a-date" rfl rfl (by decide)

/-- C8: persisting a token record and reloading it through the storage
layer yields a record equal in all fields. -/
theorem c8_persistence_roundtrip (d : TokenData) :
    TokenStorage.load_token (TokenStorage.save_token d) = some d := by
  show some (fromJson (toJson d)) = some d
  rw [fromJson_toJson]

/-- C6: `load_token` returns a record exactly when the file holds parseable
content and `is_token_valid` accepts the parsed record; an absent file and
unreadable or unparseable content yield `none` (the model is a total
function, so no read or parse error propagates). -/
theorem c6_load_token_characterization (now : Int) (f : FileState)
    (d : TokenData) :
    load_token now f = some d
      ↔ ∃ j, f = .content j ∧ fromJson j = d
          ∧ is_token_valid now (some d) = true := by
  cases f with
  | absent => simp [load_token]
  | invalid => simp [load_token]
  | content j =>
    simp only [load_token]
    cases hv : is_token_valid now (some (fromJson j)) with
    | false =>
      simp only [Bool.false_eq_true, if_false]
      constructor
      · intro hd
        exact absurd hd (by simp)
      · rintro ⟨j2, hj, hd, hvalid⟩
        obtain rfl : j = j2 := by injection hj
        rw [← hd] at hvalid
        rw [hv] at hvalid
        exact absurd hvalid (by simp)
    | true =>
      simp only [if_true]
      constructor
      · intro hd
        have hd2 := Option.some.inj hd
        exact ⟨j, rfl, hd2, hd2 ▸ hv⟩
      · rintro ⟨j2, hj, hd, hvalid⟩
        obtain rfl : j = j2 := by injection hj
        exact congrArg some hd

/-- C4: an empty authorization code is rejected with the
`Authorization code is required` error before any HTTP activity — the
result and the file are the same for every upstream outcome — and the
persisted state is untouched. -/
theorem c4_empty_code_rejected (now : Int) (outcome : HttpOutcome)
    (f : FileState) :
    exchange_code_for_token now "" outcome f
      = (.err "Authorization code is required" none, f) := rfl

/-- C2: on an upstream 200 response whose JSON body carries an
`access_token`, the exchange stamps `obtained_at = now` on both the
returned and the persisted record, sets `expires_at = obtained_at +
expires_in` on both when `expires_in` is present, writes the persisted
record to the file, and returns the success record. -/
theorem c2_exchange_success (now : Int) (code : String) (j : TokenResponseJson)
    (tok : String) (f : FileState) (hcode : code ≠ "")
    (htok : j.access_token = some tok) :
    exchange_code_for_token now code (.response 200 (.json j)) f
      = (.ok (returnedRecord now j), .content (toJson (persistedRecord now j)))
    ∧ (persistedRecord now j).obtained_at = some (isoEncode now)
    ∧ (returnedRecord now j).obtained_at = some (isoEncode now)
    ∧ (persistedRecord now j).access_token = some tok
    ∧ (returnedRecord now j).access_token = some tok
    ∧ ∀ e, j.expires_in = some e →
        (persistedRecord now j).expires_at = some (isoEncode (now + e))
        ∧ (returnedRecord now j).expires_at = some (isoEncode (now + e)) := by
  refine ⟨?_, rfl, rfl, htok, htok, ?_⟩
  · simp [exchange_code_for_token, hcode, htok, TokenStorage.save_token]
  · intro e he
    constructor <;> simp [persistedRecord, returnedRecord, he]

/-- C2 witness: the spec's mocked upstream
`{access_token: abc, expires_in: 3600}` at `exchangeCodeForToken("code1")`
persists and returns a record with `expires_at = obtained_at + 3600`. -/
theorem c2_witness :
    exchange_code_for_token 1000 "code1"
      (.response 200 (.json ⟨some "abc", none, none, none, some 3600, none, none⟩))
      .absent
      = (.ok (returnedRecord 1000 ⟨some "abc", none, none, none, some 3600, none, none⟩),
         .content (toJson (persistedRecord 1000 ⟨some "abc", none, none, none, some 3600, none, none⟩)))
    ∧ (persistedRecord 1000 ⟨some "abc", none, none, none, some 3600, none, none⟩).expires_at
        = some (isoEncode (1000 + 3600)) := by
  refine ⟨(c2_exchange_success 1000 "code1" _ "abc" .absent (by decide) rfl).1, ?_⟩
  exact ((c2_exchange_success 1000 "code1" _ "abc" .absent (by decide) rfl).2.2.2.2.2 3600 rfl).1

/-- C3: on every input, either the exchange leaves the token file exactly
as it was, or it returned a success record — so every failing outcome
(empty code, OAuth error, missing access token, non-200 status, non-JSON
body, timeout, transport failure) preserves the previously persisted
state, and only a successful exchange writes to storage. -/
theorem c3_failures_preserve_storage (now : Int) (code : String)
    (outcome : HttpOutcome) (f : FileState) :
    (exchange_code_for_token now code outcome f).2 = f
    ∨ ∃ r, (exchange_code_for_token now code outcome f).1 = .ok r := by
  by_cases hc : code = ""
  · left; simp [exchange_code_for_token, hc]
  · cases outcome with
    | timeout => left; simp [exchange_code_for_token, hc]
    | transportError e => left; simp [exchange_code_for_token, hc]
    | response status body =>
      cases body with
      | raw t => left; simp [exchange_code_for_token, hc]
      | json j =>
        by_cases hs : status = 200
        · cases hj : j.access_token with
          | some tok =>
            right
            exact ⟨returnedRecord now j, by simp [exchange_code_for_token, hc, hs, hj]⟩
          | none =>
            cases he : j.error with
            | some e => left; simp [exchange_code_for_token, hc, hs, hj, he]
            | none => left; simp [exchange_code_for_token, hc, hs, hj, he]
        · left; simp [exchange_code_for_token, hc, hs]

set_option maxRecDepth 100000 in
/-- C5, counterexample: the claim says every non-200 response yields the
HTTP error carrying its status code, but the code parses the body as JSON
before looking at the status, so an HTTP 500 whose body is not JSON
produces the invalid-JSON error with no `status_code` field at all. -/
theorem c5_counterexample :
    exchange_code_for_token 0 "code1" (.response 500 (.raw "Server Error")) .absent
      = (.err ("Invalid JSON response from AliExpress API: Server Error") none, .absent) := by
  decide

/-- C5, amended: whenever the upstream answers a non-200 status with a
JSON body, the exchange fails with the `HTTP <status>` error carrying that
status code and the parsed error body; when the body of a non-200 response
is not JSON, the invalid-JSON error is returned instead, without a status
code. -/
theorem c5_http_error (now : Int) (code : String) (status : Nat)
    (j : TokenResponseJson) (f : FileState) (hc : code ≠ "")
    (hs : status ≠ 200) :
    exchange_code_for_token now code (.response status (.json j)) f
      = (.err (httpErrorMessage status j) (some status), f)
    ∧ ∀ text, exchange_code_for_token now code (.response status (.raw text)) f
        = (.err ("Invalid JSON response from AliExpress API: " ++ text.take 200) none, f) := by
  constructor
  · simp [exchange_code_for_token, hc, hs]
  · intro text
    simp [exchange_code_for_token, hc]

/-- C5 witness: the spec's mocked HTTP 500 with a JSON error body fails
carrying status 500. -/
theorem c5_witness :
    exchange_code_for_token 0 "code1"
      (.response 500 (.json ⟨none, none, none, none, none, some "server_error", none⟩)) .absent
      = (.err (httpErrorMessage 500 ⟨none, none, none, none, none, some "server_error", none⟩) (some 500), .absent) :=
  (c5_http_error 0 "code1" 500 _ .absent (by decide) (by decide)).1

/-- C7: a successful refresh persists exactly the record derived from the
new upstream response — the new file content is a function of the response
alone, stated for an arbitrary prior file state `f` that does not occur in
it — and in particular when the refresh response omits `refresh_token` the
persisted record has no refresh token either. -/
theorem c7_refresh_overwrites (now : Int) (old : String)
    (j : TokenResponseJson) (f : FileState) (a : String) (hold : old ≠ "")
    (ha : j.access_token = some a) :
    refresh_token now old (.response 200 (.json j)) f
      = (.ok (persistedRecord now j), .content (toJson (persistedRecord now j)))
    ∧ (j.refresh_token = none → (persistedRecord now j).refresh_token = none) := by
  refine ⟨?_, fun h => h⟩
  simp [refresh_token, hold, ha, TokenStorage.save_token]

/-- C7 witness: refreshing over a prior record that held a refresh token,
with a response that has none, persists a record with no refresh token. -/
theorem c7_witness :
    refresh_token 5 "oldrt"
      (.response 200 (.json ⟨some "newtok", none, none, none, none, none, none⟩))
      (.content (toJson ⟨some "prior", some "priorrt", none, none, none, none, none⟩))
      = (.ok (persistedRecord 5 ⟨some "newtok", none, none, none, none, none, none⟩),
         .content (toJson (persistedRecord 5 ⟨some "newtok", none, none, none, none, none, none⟩)))
    ∧ (persistedRecord 5 ⟨some "newtok", none, none, none, none, none, none⟩).refresh_token = none := by
  have h := c7_refresh_overwrites 5 "oldrt"
    ⟨some "newtok", none, none, none, none, none, none⟩
    (.content (toJson ⟨some "prior", some "priorrt", none, none, none, none, none⟩))
    "newtok" (by decide) rfl
  exact ⟨h.1, h.2 rfl⟩

/-- C9: for every code, upstream outcome and file state, the exchange
returns a structured result — a success record, or an error value whose
message is non-empty — and, being a total function of its interface, never
raises to the caller. -/
theorem c9_exchange_total (now : Int) (code : String) (outcome : HttpOutcome)
    (f : FileState) :
    (∃ r, (exchange_code_for_token now code outcome f).1 = .ok r)
    ∨ (∃ m sc, (exchange_code_for_token now code outcome f).1 = .err m sc
        ∧ m ≠ "") := by
  by_cases hc : code = ""
  · right
    refine ⟨"Authorization code is required", none, ?_, by decide⟩
    simp [exchange_code_for_token, hc]
  · cases outcome with
    | timeout =>
      right
      refine ⟨"Request timed out", none, ?_, by decide⟩
      simp [exchange_code_for_token, hc]
    | transportError e =>
      right
      refine ⟨"Request failed: " ++ e, none, ?_, append_ne_empty _ _ (by decide)⟩
      simp [exchange_code_for_token, hc]
    | response status body =>
      cases body with
      | raw t =>
        right
        refine ⟨"Invalid JSON response from AliExpress API: " ++ t.take 200,
          none, ?_, append_ne_empty _ _ (by decide)⟩
        simp [exchange_code_for_token, hc]
      | json j =>
        by_cases hs : status = 200
        · cases hj : j.access_token with
          | some tok =>
            left
            exact ⟨returnedRecord now j,
              by simp [exchange_code_for_token, hc, hs, hj]⟩
          | none =>
            cases he : j.error with
            | some e =>
              right
              refine ⟨"OAuth error: " ++ j.error_description.getD e, none, ?_,
                append_ne_empty _ _ (by decide)⟩
              simp [exchange_code_for_token, hc, hs, hj, he]
            | none =>
              right
              refine ⟨"No access token received from AliExpress", none, ?_,
                by decide⟩
              simp [exchange_code_for_token, hc, hs, hj, he]
        · right
          refine ⟨httpErrorMessage status j, some status, ?_, ?_⟩
          · simp [exchange_code_for_token, hc, hs]
          · unfold httpErrorMessage
            apply append_ne_empty
            rw [String.length_append]
            have h5 : ("HTTP " : String).length = 5 := rfl
            omega
